import Mathlib

/- A shallow embedding of the BlogList component (src/src/js/BlogList.js):
   its data model, cache/fetch pipeline, sorting, filtering, searching and
   rendering, together with theorems checking the specification's claims. -/

namespace BlogListSpec

/-- Value of the free-form `reading_time` field: a JS number (modelled as an
integer), a JS string, or anything else (including a missing field). -/
inductive RTime where
  | num (n : Int)
  | str (s : String)
  | other
  deriving DecidableEq

/-- One blog entry as consumed by BlogList.js; every field may be absent
(`none`). A `tags` value that is not an array behaves like `none` in the code
(`Array.isArray` guard), so `Option (List String)` covers it. -/
structure BlogEntry where
  title : Option String
  author : Option String
  content : Option String
  image : Option String
  published_date : Option String
  reading_time : RTime
  category : Option String
  tags : Option (List String)
  deriving DecidableEq

/-- The component state the claims are about: `this.items`,
`this.filteredItems`, `this.page`, `this.perPage` (constructor values:
`[]`, `[]`, `1`, `10`). -/
structure ListState where
  items : List BlogEntry
  filteredItems : List BlogEntry
  page : Nat
  perPage : Nat
  deriving DecidableEq

/-- Errors thrown inside one fetch attempt: `new Error("Failed to fetch
blogs")` for a non-ok HTTP status, `new Error("Unexpected API response")` for a
non-array payload, or a transport error thrown by `fetch`/`res.json` itself. -/
inductive FetchError where
  | httpError
  | badShape
  | transport (msg : String)
  deriving DecidableEq

/-- The `err.message` string of a thrown fetch error. -/
def errMessage : FetchError → String
  | FetchError.httpError => "Failed to fetch blogs"
  | FetchError.badShape => "Unexpected API response"
  | FetchError.transport m => m

/-- State of the `blogs_cache_v1` localStorage entry as seen by `fetchData`:
absent (`getItem` returns null), corrupt (unparsable JSON, a falsy parse
result, a missing/non-array `data`, or a non-numeric timestamp, for which
`Date.now() - parsed.timestamp < cacheTtlMs` is false), or a structurally
valid envelope `\x7b data, timestamp \x7d`. -/
inductive CacheState where
  | absent
  | corrupt
  | envelope (data : List BlogEntry) (timestamp : Nat)
  deriving DecidableEq

/-- `const cacheTtlMs = 10 * 60 * 1000` (10 minutes). -/
def cacheTtlMs : Nat := 10 * 60 * 1000

/-- `const maxAttempts = 3`. -/
def maxAttempts : Nat := 3

/-- Observable outcome of the network retry loop: how many attempts ran, the
backoff delays awaited between them (in ms, in order), and the final result
(the successful payload, or the last error, which the loop re-throws). -/
structure LoopOut where
  attempts : Nat
  delays : List Nat
  outcome : Except FetchError (List BlogEntry)

/-- The retry loop of `fetchData` (`for (let attempt = 1; attempt <=
maxAttempts; attempt++)`). `net k` is the outcome of network attempt `k`
(1-based). `fuel` is the number of attempts still allowed including the
current one, so the loop starts at `fetchLoop net 1 maxAttempts`; on a failure
with attempts remaining the code awaits `300 * attempt` ms and continues,
and on the last attempt it re-throws the last error. -/
def fetchLoop (net : Nat → Except FetchError (List BlogEntry)) :
    Nat → Nat → LoopOut
  | _, 0 => { attempts := 0, delays := [], outcome := Except.error (FetchError.transport "no attempt") }
  | attempt, fuel + 1 =>
    match net attempt with
    | Except.ok data => { attempts := 1, delays := [], outcome := Except.ok data }
    | Except.error e =>
      if fuel = 0 then
        { attempts := 1, delays := [], outcome := Except.error e }
      else
        let r := fetchLoop net (attempt + 1) fuel
        { attempts := r.attempts + 1, delays := 300 * attempt :: r.delays, outcome := r.outcome }

/-- Observable outcome of one `fetchData` call: whether the fresh cache was
adopted, how many network attempts ran, the delays, and the final payload or
error. -/
structure FetchResult where
  fromCache : Bool
  attempts : Nat
  delays : List Nat
  outcome : Except FetchError (List BlogEntry)

/-- The network part of `fetchData` (lines 93-121): the retry loop starting at
attempt 1. -/
def netFetch (net : Nat → Except FetchError (List BlogEntry)) : FetchResult :=
  let r := fetchLoop net 1 maxAttempts
  { fromCache := false, attempts := r.attempts, delays := r.delays, outcome := r.outcome }

/-- `fetchData` (lines 70-122): if a structurally valid cache envelope exists
and `Date.now() - parsed.timestamp < cacheTtlMs`, adopt the cached data and
return without touching the network; otherwise (absent, corrupt, or stale
envelope) fall through to the network retry loop. `now - ts` is truncated
Nat subtraction: a future timestamp gives 0, matching the JS negative
difference also comparing below the TTL. -/
def fetchData (cache : CacheState) (now : Nat)
    (net : Nat → Except FetchError (List BlogEntry)) : FetchResult :=
  match cache with
  | CacheState.envelope data ts =>
    if now - ts < cacheTtlMs then
      { fromCache := true, attempts := 0, delays := [], outcome := Except.ok data }
    else netFetch net
  | _ => netFetch net

/-- The state update `fetchData` performs on success: `this.items = data;
this.filteredItems = [...data]` (on a thrown error the fields are left
unchanged). -/
def applyFetch (st : ListState) (fr : FetchResult) : ListState :=
  match fr.outcome with
  | Except.ok data => { st with items := data, filteredItems := data }
  | Except.error _ => st

/-- A permanently failing network, used to instantiate universally quantified
theorems at a concrete input. -/
def failNet : Nat → Except FetchError (List BlogEntry) :=
  fun _ => Except.error FetchError.httpError

/-- A concrete blog entry used to instantiate theorems. -/
def sampleEntry : BlogEntry :=
  { title := some "React Basics"
  , author := some "Ada"
  , content := some "hooks and state"
  , image := some "img.png"
  , published_date := some "2024-01-01"
  , reading_time := RTime.str "5 min read"
  , category := some "Gadgets"
  , tags := some ["react", "js"] }

/-- The state a freshly constructed BlogList starts from. -/
def initialState : ListState :=
  { items := [], filteredItems := [], page := 1, perPage := 10 }

/-- A second concrete blog entry (different category, no matching tag). -/
def sampleEntry2 : BlogEntry :=
  { title := some "Slow Mornings"
  , author := some "Bey"
  , content := some "essays on writing"
  , image := none
  , published_date := some "2023-06-15"
  , reading_time := RTime.num 7
  , category := some "Writing"
  , tags := some ["essays"] }

/-- A concrete mid-session state used to instantiate theorems. -/
def witnessState : ListState :=
  { items := [sampleEntry, sampleEntry2]
  , filteredItems := [sampleEntry2]
  , page := 5
  , perPage := 10 }

/-- JS `String.prototype.toLowerCase`, modelled character-wise (the entries
and control values in scope are ASCII, where `Char.toLower` agrees with JS). -/
def strLower (s : String) : String := String.mk (s.toList.map Char.toLower)

/-- Does `pat` occur at the head of `hay`? (helper for substring search). -/
def startsWithL : List Char → List Char → Bool
  | _, [] => true
  | [], _ :: _ => false
  | h :: hs, p :: ps => (h = p) && startsWithL hs ps

/-- Does `pat` occur anywhere in `hay`? (JS `String.prototype.includes`,
which is true for the empty pattern). -/
def containsL : List Char → List Char → Bool
  | [], pat => pat.isEmpty
  | h :: hs, pat => startsWithL (h :: hs) pat || containsL hs pat

/-- JS `hay.includes(pat)`. -/
def strContainsB (hay pat : String) : Bool := containsL hay.toList pat.toList

/-- JS `String.prototype.trim`: drop whitespace from both ends (modelled with
`Char.isWhitespace`, which covers the whitespace appearing in scope). -/
def strTrim (s : String) : String :=
  String.mk (((s.toList.dropWhile Char.isWhitespace).reverse.dropWhile Char.isWhitespace).reverse)

/-- The lookahead `(?=\s*min)` with the `i` flag: skip whitespace, then the
three letters m-i-n case-insensitively. -/
def matchesMin : List Char → Bool
  | a :: b :: c :: _ => (a.toLower = 'm') && (b.toLower = 'i') && (c.toLower = 'n')
  | _ => false

/-- Run the `\s*min` lookahead from a position: `\s*` consumes any run of
whitespace, then `min` must follow. -/
def lookaheadMin : List Char → Bool
  | [] => false
  | c :: rest => if c.isWhitespace then lookaheadMin rest else matchesMin (c :: rest)

/-- Greedy-with-backtracking body of `(\d+)(?=\s*min)` at a fixed start
position whose maximal digit run has length at least `k`: try the group
lengths `k, k-1, ..., 1` and return the first (longest) digit group whose
suffix passes the lookahead. -/
def tryK (cs : List Char) : Nat → Option (List Char)
  | 0 => none
  | k + 1 => if lookaheadMin (cs.drop (k + 1)) then some (cs.take (k + 1)) else tryK cs k

/-- Match `(\d+)(?=\s*min)` anchored at this position: a nonempty digit run
must start here, then `tryK` backtracks over its length. -/
def tryAt (cs : List Char) : Option (List Char) :=
  let r := cs.takeWhile Char.isDigit
  if r.isEmpty then none else tryK cs r.length

/-- `val.match(/(\d+)(?=\s*min)/i)`: scan left to right for the first position
where the anchored match succeeds, returning the captured digit group. -/
def scanMin : List Char → Option (List Char)
  | [] => none
  | c :: rest =>
    match tryAt (c :: rest) with
    | some d => some d
    | none => scanMin rest

/-- `parseInt` of a digit string. -/
def digitsToNat (ds : List Char) : Nat :=
  ds.foldl (fun acc c => acc * 10 + (c.toNat - '0'.toNat)) 0

/-- `Number.MAX_SAFE_INTEGER`. -/
def maxSafeInteger : Int := 9007199254740991

/-- A JS number as the comparators see it: an integer or NaN. -/
inductive JsNum where
  | nan
  | int (n : Int)
  deriving DecidableEq

/-- JS subtraction on comparator operands: NaN is absorbing. -/
def JsNum.sub : JsNum → JsNum → JsNum
  | JsNum.int a, JsNum.int b => JsNum.int (a - b)
  | _, _ => JsNum.nan

/-- `parseMinutes` (lines 194-201). A number is returned as is. For a string,
`m = val.match(/(\d+)(?=\s*min)/i) || val.match(/\d+/)`; if the first regex
matched, `m[1]` is the digit group and `parseInt` yields its value; if only
the fallback `/\d+/` matched (the string has a digit but no digit run before
"min"), that match has no capture group, so `m[1]` is `undefined` and
`parseInt(undefined, 10)` is `NaN`; if neither matched (no digit at all),
`Number.MAX_SAFE_INTEGER` is returned. Any other value type also returns
`Number.MAX_SAFE_INTEGER`. -/
def parseMinutes : RTime → JsNum
  | RTime.num n => JsNum.int n
  | RTime.str s =>
    match scanMin s.toList with
    | some d => JsNum.int (digitsToNat d)
    | none =>
      if s.toList.any Char.isDigit then JsNum.nan else JsNum.int maxSafeInteger
  | RTime.other => JsNum.int maxSafeInteger

/-- The filter predicate of `onFilterChange` (lines 247-254) for a lower-cased
needle: the lower-cased category equals the needle, or the lower-cased tags
include it. -/
def filterMatch (needle : String) (it : BlogEntry) : Bool :=
  let category := strLower (it.category.getD "")
  let tags := (it.tags.getD []).map strLower
  category = needle || tags.contains needle

/-- `onFilterChange` (lines 240-258), with `val` the select's value (absent
select or empty selection give `""`): an empty value restores the full
`items` set, otherwise `items` is filtered by category/tag match; `page` is
reset to 1. -/
def onFilterChange (st : ListState) (val : String) : ListState :=
  if val = "" then
    { st with filteredItems := st.items, page := 1 }
  else
    { st with filteredItems := st.items.filter (filterMatch (strLower val)), page := 1 }

/-- The search predicate of `onSearchInput` (lines 274-278) for a trimmed,
lower-cased query: the lower-cased title or content contains it. -/
def searchMatch (q : String) (it : BlogEntry) : Bool :=
  strContainsB (strLower (it.title.getD "")) q ||
    strContainsB (strLower (it.content.getD "")) q

/-- `onSearchInput` (lines 267-282), with `filterVal` the filter select's
current value (absent select gives `""`) and `raw` the search box's value.
An empty trimmed query delegates to `onFilterChange` on the current filter
value; otherwise `items` is filtered on title/content; `page` is reset to 1
in both branches. -/
def onSearchInput (st : ListState) (filterVal raw : String) : ListState :=
  let q := strLower (strTrim raw)
  if q = "" then
    let st2 := onFilterChange st filterVal
    { st2 with page := 1 }
  else
    { st with filteredItems := st.items.filter (searchMatch q), page := 1 }

/-- The ECMA SortCompare normalization applied to a comparator result: a NaN
result is replaced by +0, and the element may go first when the (normalized)
result is at most 0. -/
def cmpToLe : JsNum → Bool
  | JsNum.nan => true
  | JsNum.int n => decide (n ≤ 0)

/-- `ac.localeCompare(bc)` modelled as the standard string order (no claim in
scope depends on locale specifics of the collation). -/
def localeCompare (a b : String) : Int :=
  match compare a b with
  | Ordering.lt => -1
  | Ordering.eq => 0
  | Ordering.gt => 1

/-- The `date` branch comparator (lines 206-208): `dv` stands for `x => new
Date(x).getTime()` (NaN for a missing or unparsable date), and the comparator
is the JS subtraction `dv b - dv a` (newest first). -/
def dateLe (dv : Option String → JsNum) (a b : BlogEntry) : Bool :=
  cmpToLe (JsNum.sub (dv b.published_date) (dv a.published_date))

/-- The `reading_time` branch comparator (lines 212-214). -/
def rtLe (a b : BlogEntry) : Bool :=
  cmpToLe (JsNum.sub (parseMinutes a.reading_time) (parseMinutes b.reading_time))

/-- The `category` branch comparator (lines 218-222): lower-cased categories
(missing category as "") compared with localeCompare. -/
def catLe (a b : BlogEntry) : Bool :=
  cmpToLe (JsNum.int (localeCompare (strLower (a.category.getD ""))
    (strLower (b.category.getD ""))))

/-- Stable insertion of `x` in front of the first element `y` with `le x y`. -/
def insertLe {α : Type} (le : α → α → Bool) (x : α) : List α → List α
  | [] => [x]
  | y :: ys => if le x y then x :: y :: ys else y :: insertLe le x ys

/-- JS `Array.prototype.sort` with the `le` relation induced by a comparator,
modelled as a stable insertion sort — for a consistent comparator exactly the
stable sorted order ECMA-262 requires. -/
def sortLe {α : Type} (le : α → α → Bool) : List α → List α
  | [] => []
  | x :: xs => insertLe le x (sortLe le xs)

/-- The comparator the switch of `onSortChange` (lines 203-227) selects: one
of the three named branches, or the constant-zero comparator of the default
branch (under which every pair compares as a tie). -/
def sortComparatorLe (dv : Option String → JsNum) (crit : String) :
    BlogEntry → BlogEntry → Bool :=
  if crit = "date" then dateLe dv
  else if crit = "reading_time" then rtLe
  else if crit = "category" then catLe
  else fun _ _ => cmpToLe (JsNum.int 0)

/-- `onSortChange` (lines 189-231), with `crit` the sort select's value (`""`
when absent or empty): sorts a copy of `filteredItems` by the selected
comparator, stores it back, and resets `page` to 1. -/
def onSortChange (dv : Option String → JsNum) (st : ListState) (crit : String) :
    ListState :=
  { st with
    filteredItems := sortLe (sortComparatorLe dv crit) st.filteredItems
    page := 1 }

/-- JS template interpolation of a possibly missing string field: a missing
value renders as the literal text "undefined". -/
def tmpl (o : Option String) : String := o.getD "undefined"

/-- Template interpolation of the free-form `reading_time` field. -/
def rtText : RTime → String
  | RTime.num n => toString n
  | RTime.str s => s
  | RTime.other => "undefined"

/-- The tag list markup (lines 167-169). -/
def tagsHtml (tags : List String) : String :=
  String.join (tags.map (fun t => "<span class=\"tag\">" ++ t ++ "</span>"))

/-- One article block of `render` (lines 152-172), with `fmtDate` standing for
`x => new Date(x).toLocaleDateString()` (locale-dependent, so kept abstract). -/
def articleHtml (fmtDate : Option String → String) (item : BlogEntry) : String :=
  "\n                <article class=\"blog-item\">\n                    <img src=\"" ++
    tmpl item.image ++
    "\" alt=\"\" class=\"blog-image\" />\n                    <div class=\"blog-content\">\n                        <h3 class=\"blog-title\">" ++
    tmpl item.title ++
    "</h3>\n                        <div class=\"blog-meta\">\n                            <span class=\"blog-author\">" ++
    tmpl item.author ++
    "</span>\n                            <time class=\"blog-date\">" ++
    fmtDate item.published_date ++
    "</time>\n                            <span class=\"blog-reading-time\">" ++
    rtText item.reading_time ++
    "</span>\n                        </div>\n                        <p class=\"blog-excerpt\">" ++
    tmpl item.content ++
    "</p>\n                        <div class=\"blog-tags\">" ++
    tagsHtml (item.tags.getD []) ++
    "</div>\n                    </div>\n                </article>\n        "

/-- The visible slice of `render`: `this.filteredItems.slice(0, page * perPage)`. -/
def visibleSlice (st : ListState) : List BlogEntry :=
  st.filteredItems.take (st.page * st.perPage)

/-- The placeholder markup shown when the slice is empty. -/
def noResultsHtml : String := "<p class=\"no-results\">No blogs found</p>"

/-- `render` (lines 145-180): the container's final innerHTML — the joined
article blocks of the visible slice, overwritten by the placeholder when the
slice is empty. -/
def render (fmtDate : Option String → String) (st : ListState) : String :=
  let slice := visibleSlice st
  let html := String.join (slice.map (articleHtml fmtDate))
  if slice.length = 0 then noResultsHtml else html

/-- The loading/error UI bits `init` touches: whether the loading indicator is
visible (its "hidden" class removed), whether an error container element
exists, and the error text currently shown. -/
structure UiState where
  loadingVisible : Bool
  hasErrorContainer : Bool
  errorText : Option String
  deriving DecidableEq

/-- `showError` (lines 302-306): with no error container it returns at once;
otherwise it unhides the container and sets the text "Error: " followed by
the error's message. -/
def showError (ui : UiState) (e : FetchError) : UiState :=
  if ui.hasErrorContainer then
    { ui with errorText := some ("Error: " ++ errMessage e) }
  else ui

/-- `init` (lines 51-62): show the loading indicator, run `fetchData`, and on
success adopt the payload (listener wiring and the first render do not change
these fields); a thrown error is caught and routed to `showError`; the
`finally` block hides the loading indicator on both paths, and `init` itself
always returns normally (it never re-throws). -/
def init (cache : CacheState) (now : Nat)
    (net : Nat → Except FetchError (List BlogEntry))
    (st : ListState) (ui : UiState) : ListState × UiState :=
  let ui1 := { ui with loadingVisible := true }
  let fr := fetchData cache now net
  match fr.outcome with
  | Except.ok data =>
    ({ st with items := data, filteredItems := data },
      { ui1 with loadingVisible := false })
  | Except.error e =>
    (st, { showError ui1 e with loadingVisible := false })

/-- A concrete UI state (error container present) for witnesses. -/
def uiSample : UiState :=
  { loadingVisible := false, hasErrorContainer := true, errorText := none }

/- ------------------------------------------------------------------ -/
/- Theorems                                                            -/
/- ------------------------------------------------------------------ -/

theorem netFetch_attempts_pos (net : Nat → Except FetchError (List BlogEntry)) :
    1 ≤ (netFetch net).attempts := by
  unfold netFetch maxAttempts fetchLoop
  cases h : net 1 <;> simp [h]

/-- C1: a present, structurally valid cache envelope younger than 10 minutes
is adopted verbatim as both `items` and `filteredItems` with zero network
attempts; an absent, corrupt, or 10-minutes-or-older envelope makes
`fetchData` perform at least one network attempt. -/
theorem fetchData_cache_semantics (cache : CacheState) (now : Nat)
    (net : Nat → Except FetchError (List BlogEntry)) (st : ListState) :
    (∀ data ts, cache = CacheState.envelope data ts → now - ts < cacheTtlMs →
      (fetchData cache now net).attempts = 0 ∧
      (applyFetch st (fetchData cache now net)).items = data ∧
      (applyFetch st (fetchData cache now net)).filteredItems = data) ∧
    ((∀ data ts, cache = CacheState.envelope data ts → cacheTtlMs ≤ now - ts) →
      1 ≤ (fetchData cache now net).attempts) := by
  constructor
  · intro data ts hc hts
    subst hc
    simp [fetchData, hts, applyFetch]
  · intro hstale
    cases cache with
    | absent => exact netFetch_attempts_pos net
    | corrupt => exact netFetch_attempts_pos net
    | envelope data ts =>
      have h := hstale data ts rfl
      simp [fetchData, Nat.not_lt.mpr h]
      exact netFetch_attempts_pos net

theorem fetchData_cache_semantics_witness :
    ((fetchData (CacheState.envelope [sampleEntry] 0) 1 failNet).attempts = 0 ∧
      (applyFetch initialState (fetchData (CacheState.envelope [sampleEntry] 0) 1 failNet)).items = [sampleEntry] ∧
      (applyFetch initialState (fetchData (CacheState.envelope [sampleEntry] 0) 1 failNet)).filteredItems = [sampleEntry]) ∧
    1 ≤ (fetchData CacheState.absent 0 failNet).attempts :=
  ⟨(fetchData_cache_semantics (CacheState.envelope [sampleEntry] 0) 1 failNet initialState).1
      [sampleEntry] 0 rfl (by decide),
    (fetchData_cache_semantics CacheState.absent 0 failNet initialState).2
      (fun data ts h => by cases h)⟩

/-- C2: with every attempt failing, the retry loop makes exactly 3 attempts,
waits 300 ms then 600 ms between them, and propagates the third attempt's
error; a success on attempt 1, 2 or 3 returns that attempt's payload with no
further attempts. -/
theorem fetchData_retry_semantics (net : Nat → Except FetchError (List BlogEntry)) :
    (∀ e1 e2 e3, net 1 = Except.error e1 → net 2 = Except.error e2 →
      net 3 = Except.error e3 →
      (netFetch net).attempts = 3 ∧ (netFetch net).delays = [300, 600] ∧
      (netFetch net).outcome = Except.error e3) ∧
    (∀ d, net 1 = Except.ok d →
      (netFetch net).attempts = 1 ∧ (netFetch net).delays = [] ∧
      (netFetch net).outcome = Except.ok d) ∧
    (∀ e1 d, net 1 = Except.error e1 → net 2 = Except.ok d →
      (netFetch net).attempts = 2 ∧ (netFetch net).delays = [300] ∧
      (netFetch net).outcome = Except.ok d) ∧
    (∀ e1 e2 d, net 1 = Except.error e1 → net 2 = Except.error e2 →
      net 3 = Except.ok d →
      (netFetch net).attempts = 3 ∧ (netFetch net).delays = [300, 600] ∧
      (netFetch net).outcome = Except.ok d) := by
  refine ⟨?_, ?_, ?_, ?_⟩
  · intro e1 e2 e3 h1 h2 h3
    simp [netFetch, maxAttempts, fetchLoop, h1, h2, h3]
  · intro d h1
    simp [netFetch, maxAttempts, fetchLoop, h1]
  · intro e1 d h1 h2
    simp [netFetch, maxAttempts, fetchLoop, h1, h2]
  · intro e1 e2 d h1 h2 h3
    simp [netFetch, maxAttempts, fetchLoop, h1, h2, h3]

theorem fetchData_retry_semantics_witness :
    (netFetch failNet).attempts = 3 ∧ (netFetch failNet).delays = [300, 600] ∧
      (netFetch failNet).outcome = Except.error FetchError.httpError :=
  (fetchData_retry_semantics failNet).1
    FetchError.httpError FetchError.httpError FetchError.httpError rfl rfl rfl


/-- C3: the code's reading-time extraction at the spec's inputs. "5 min read"
parses to 5 and a plain number passes through, as claimed; but for the string
"12" (digits without a "min" token) the fallback `val.match(/\d+/)` has no
capture group, so `parseInt(m[1], 10)` is `parseInt(undefined, 10) = NaN` —
not the claimed value 12 — and the sort comparator then treats the entry as a
tie with every other element instead of ordering it as 12. A string with no
digits yields `Number.MAX_SAFE_INTEGER` (sorts last), as claimed. -/
theorem parseMinutes_fallback_nan :
    parseMinutes (RTime.str "12") = JsNum.nan ∧
    JsNum.nan ≠ JsNum.int 12 ∧
    parseMinutes (RTime.str "5 min read") = JsNum.int 5 ∧
    parseMinutes (RTime.num 7) = JsNum.int 7 ∧
    parseMinutes (RTime.str "no time") = JsNum.int maxSafeInteger :=
  ⟨by decide, by decide, by decide, by decide, by decide⟩

/-- C4: a non-empty filter value keeps exactly the entries whose category
case-insensitively equals it or whose tags case-insensitively include it; an
empty value resets `filteredItems` to the full `items` set. -/
theorem onFilterChange_spec (st : ListState) (v : String) :
    (v ≠ "" → ∀ x, x ∈ (onFilterChange st v).filteredItems ↔
      (x ∈ st.items ∧ (strLower (x.category.getD "") = strLower v ∨
        strLower v ∈ (x.tags.getD []).map strLower))) ∧
    (v = "" → (onFilterChange st v).filteredItems = st.items) := by
  constructor
  · intro hv x
    simp [onFilterChange, hv, filterMatch, List.mem_filter]
  · intro hv
    simp [onFilterChange, hv]

theorem onFilterChange_spec_witness :
    sampleEntry ∈ (onFilterChange witnessState "Gadgets").filteredItems ↔
      (sampleEntry ∈ witnessState.items ∧
        (strLower (sampleEntry.category.getD "") = strLower "Gadgets" ∨
          strLower "Gadgets" ∈ (sampleEntry.tags.getD []).map strLower)) :=
  (onFilterChange_spec witnessState "Gadgets").1 (by decide) sampleEntry

/-- C5: a query that is non-empty after trimming and lower-casing keeps
exactly the entries whose title or content case-insensitively contains it;
an empty query falls back to the current filter selection, so the whole call
behaves exactly like `onFilterChange` on the filter's current value. -/
theorem onSearchInput_spec (st : ListState) (fv raw : String) :
    (strLower (strTrim raw) ≠ "" → ∀ x,
      x ∈ (onSearchInput st fv raw).filteredItems ↔
      (x ∈ st.items ∧
        (strContainsB (strLower (x.title.getD "")) (strLower (strTrim raw)) = true ∨
          strContainsB (strLower (x.content.getD "")) (strLower (strTrim raw)) = true))) ∧
    (strLower (strTrim raw) = "" → onSearchInput st fv raw = onFilterChange st fv) := by
  constructor
  · intro hq x
    simp [onSearchInput, hq, searchMatch, List.mem_filter]
  · intro hq
    simp [onSearchInput, hq]
    unfold onFilterChange
    split <;> rfl

theorem onSearchInput_spec_witness :
    (sampleEntry ∈ (onSearchInput witnessState "Startups" "  React ").filteredItems ↔
      (sampleEntry ∈ witnessState.items ∧
        (strContainsB (strLower (sampleEntry.title.getD "")) (strLower (strTrim "  React ")) = true ∨
          strContainsB (strLower (sampleEntry.content.getD "")) (strLower (strTrim "  React ")) = true))) ∧
    onSearchInput witnessState "Startups" "   " = onFilterChange witnessState "Startups" :=
  ⟨(onSearchInput_spec witnessState "Startups" "  React ").1 (by decide) sampleEntry,
    (onSearchInput_spec witnessState "Startups" "   ").2 (by decide)⟩


theorem insertLe_perm {α : Type} (le : α → α → Bool) (x : α) (l : List α) :
    (insertLe le x l).Perm (x :: l) := by
  induction l with
  | nil => simp [insertLe]
  | cons y ys ih =>
    unfold insertLe
    split
    · exact List.Perm.refl _
    · exact (ih.cons y).trans (List.Perm.swap x y ys)

theorem sortLe_perm {α : Type} (le : α → α → Bool) (l : List α) :
    (sortLe le l).Perm l := by
  induction l with
  | nil => simp [sortLe]
  | cons x xs ih =>
    unfold sortLe
    exact (insertLe_perm le x (sortLe le xs)).trans (ih.cons x)

theorem sortLe_trivial {α : Type} (le : α → α → Bool)
    (h : ∀ a b, le a b = true) (l : List α) : sortLe le l = l := by
  induction l with
  | nil => rfl
  | cons x xs ih =>
    unfold sortLe
    rw [ih]
    cases xs with
    | nil => rfl
    | cons y ys => simp [insertLe, h]

/-- C9: every sort criterion produces a permutation of the current
`filteredItems` (sort acts within whatever filter or search is active), and
an unrecognized or empty criterion leaves the sequence exactly in its
pre-call order (the default branch's constant-zero comparator makes every
comparison a tie, and a stable sort of all-ties is the identity). -/
theorem onSortChange_perm_default (dv : Option String → JsNum)
    (st : ListState) (crit : String) :
    ((onSortChange dv st crit).filteredItems.Perm st.filteredItems) ∧
    (crit ≠ "date" → crit ≠ "reading_time" → crit ≠ "category" →
      (onSortChange dv st crit).filteredItems = st.filteredItems) := by
  constructor
  · exact sortLe_perm _ _
  · intro h1 h2 h3
    show sortLe (sortComparatorLe dv crit) st.filteredItems = st.filteredItems
    have hc : sortComparatorLe dv crit = fun _ _ => cmpToLe (JsNum.int 0) := by
      simp [sortComparatorLe, h1, h2, h3]
    rw [hc]
    exact sortLe_trivial _ (fun a b => by decide) _

theorem onSortChange_perm_default_witness :
    (onSortChange (fun _ => JsNum.nan) witnessState "").filteredItems =
      witnessState.filteredItems :=
  (onSortChange_perm_default (fun _ => JsNum.nan) witnessState "").2
    (by decide) (by decide) (by decide)

/-- C6: the visible slice is always the first `page * perPage` entries of
`filteredItems` (cumulative load-more pagination, not a window), and an empty
slice renders the literal "No blogs found" placeholder, which contains no
article block. -/
theorem render_spec (fmtDate : Option String → String) (st : ListState) :
    ((visibleSlice st).length = min (st.page * st.perPage) st.filteredItems.length) ∧
    (∀ i : Nat, i < st.page * st.perPage →
      (visibleSlice st)[i]? = st.filteredItems[i]?) ∧
    (visibleSlice st = [] →
      render fmtDate st = "<p class=\"no-results\">No blogs found</p>" ∧
      strContainsB (render fmtDate st) "<article" = false) := by
  refine ⟨?_, ?_, ?_⟩
  · simp [visibleSlice]
  · intro i hi
    simp [visibleSlice, List.getElem?_take_of_lt hi]
  · intro h
    have hr : render fmtDate st = noResultsHtml := by
      simp [render, h]
    refine ⟨hr, ?_⟩
    rw [hr]
    decide

theorem render_spec_witness :
    render (fun _ => "1/1/2024") initialState =
      "<p class=\"no-results\">No blogs found</p>" ∧
    strContainsB (render (fun _ => "1/1/2024") initialState) "<article" = false :=
  (render_spec (fun _ => "1/1/2024") initialState).2.2 rfl

/-- C7: for every acquisition outcome `init` ends with the loading indicator
hidden; on success it adopts the payload; on a thrown error it leaves the
list state unchanged and routes the error to `showError` (as a total function
it returns on every input instead of propagating the error). -/
theorem init_spec (cache : CacheState) (now : Nat)
    (net : Nat → Except FetchError (List BlogEntry))
    (st : ListState) (ui : UiState) :
    ((init cache now net st ui).2.loadingVisible = false) ∧
    (∀ data, (fetchData cache now net).outcome = Except.ok data →
      (init cache now net st ui).1 = { st with items := data, filteredItems := data }) ∧
    (∀ e, (fetchData cache now net).outcome = Except.error e →
      (init cache now net st ui).1 = st ∧
      (init cache now net st ui).2 =
        { showError { ui with loadingVisible := true } e with loadingVisible := false }) := by
  refine ⟨?_, ?_, ?_⟩
  · unfold init
    cases h : (fetchData cache now net).outcome <;> simp [h]
  · intro data h
    unfold init
    simp [h]
  · intro e h
    unfold init
    simp [h]

theorem init_spec_witness :
    (init CacheState.absent 0 failNet witnessState uiSample).1 = witnessState ∧
    (init CacheState.absent 0 failNet witnessState uiSample).2 =
      { showError { uiSample with loadingVisible := true } FetchError.httpError with
          loadingVisible := false } :=
  (init_spec CacheState.absent 0 failNet witnessState uiSample).2.2
    FetchError.httpError rfl

/-- C8: every sort, filter and search operation resets `page` to 1 (and stores
a freshly derived `filteredItems`, per the respective operation). -/
theorem controls_reset_page (dv : Option String → JsNum) (st : ListState)
    (crit v fv raw : String) :
    (onSortChange dv st crit).page = 1 ∧
    (onFilterChange st v).page = 1 ∧
    (onSearchInput st fv raw).page = 1 := by
  refine ⟨rfl, ?_, ?_⟩
  · unfold onFilterChange
    split <;> rfl
  · unfold onSearchInput
    dsimp only
    split <;> rfl

/-- C10: no sort, filter or search operation changes `items`: sorting works
on a copy of `filteredItems`, and filtering/searching only build new arrays
out of `items`. -/
theorem controls_preserve_items (dv : Option String → JsNum) (st : ListState)
    (crit v fv raw : String) :
    (onSortChange dv st crit).items = st.items ∧
    (onFilterChange st v).items = st.items ∧
    (onSearchInput st fv raw).items = st.items := by
  refine ⟨rfl, ?_, ?_⟩
  · unfold onFilterChange
    split <;> rfl
  · unfold onSearchInput
    dsimp only
    split
    · show ({ onFilterChange st fv with page := 1 } : ListState).items = st.items
      unfold onFilterChange
      split <;> rfl
    · rfl

end BlogListSpec
